import Mathlib

/-!
Verification of the Operation-document builder for POST endpoints
(src/flask_marshmallow_openapi/decorators/decorate_post.py).

The builder and its data model are embedded shallowly: Python dicts that are
used as string-keyed maps become association lists, enum values become
inductive types, and optional/defaulted Python values become Option. External
collaborators that are not part of the repository's single source file
(the schemas registry, the path manager's operation-id generator, the
Securities enumeration and the two shared helpers) are modelled from the
specification, as marked on each definition.
-/

/-- Python substring helper: does the character list hay contain needle as a
contiguous sublist (the semantics of the Python expression needle in hay)?
Auxiliary starts-with test. -/
def listStartsWith : List Char → List Char → Bool
  | _, [] => true
  | [], _ :: _ => false
  | a :: as, b :: bs => a = b && listStartsWith as bs

/-- Python substring containment over character lists. -/
def listContainsSub : List Char → List Char → Bool
  | [], needle => needle.isEmpty
  | a :: rest, needle => listStartsWith (a :: rest) needle || listContainsSub rest needle

/-- The Python expression needle in hay for strings. -/
def strContainsSub (hay needle : String) : Bool :=
  listContainsSub hay.data needle.data

/-- The Python method str.lower, mapping each character to lower case. -/
def strLower (s : String) : String :=
  ⟨s.data.map Char.toLower⟩

/-- Python truthiness of an optional string: None and the empty string are
falsy, every other string is truthy. -/
def optStrTruthy : Option String → Bool
  | none => false
  | some s => s != ""

/-- The Locations enumeration of openapi_pydantic_models: the possible values
of a parameter's in field. -/
inductive Locations where
  | query
  | header
  | path
  | cookie
deriving DecidableEq, Repr

/-- A structured ParameterObject (openapi_pydantic_models). Only the fields
the builder reads or writes are modelled; name may be absent (the initial
document factory's placeholder parameter has no name). -/
structure ParameterObject where
  name : Option String
  in_ : Option Locations
  required : Option Bool
  allowEmptyValue : Option Bool
deriving DecidableEq, Repr

/-- A media-type entry: the schema object holding a single JSON-reference
string, as built literally by the source (schema -> dollar-ref -> string). -/
structure MediaTypeObject where
  schema_ref : String
deriving DecidableEq, Repr

/-- A ResponseObject: the builder only ever creates description-only entries
and content-only entries, both are instances of this shape. The content is a
map from media type to media object, as an association list. -/
structure ResponseObject where
  description : Option String
  content : Option (List (String × MediaTypeObject))
deriving DecidableEq, Repr

/-- A RequestBodyObject with its content map. -/
structure RequestBodyObject where
  content : List (String × MediaTypeObject)
deriving DecidableEq, Repr

/-- A SecurityRequirementObject: one scheme name mapped to a scope list,
as built by the source from the Securities member name. -/
structure SecurityRequirementObject where
  scheme : String
  scopes : List String
deriving DecidableEq, Repr

/-- The mutable OpenAPI Operation object the builder assembles. The responses
map (ResponsesObject) is a string-keyed insertion-ordered dict, modelled as an
association list with unique keys maintained by setResp. -/
structure OperationObject where
  operationId : Option String
  summary : Option String
  tags : List String
  parameters : List ParameterObject
  requestBody : Option RequestBodyObject
  responses : List (String × ResponseObject)
  security : Option (List SecurityRequirementObject)
deriving DecidableEq, Repr

/-- Modelled from the spec: the Securities enumeration is a closed set of
named values including a distinguished no-token sentinel; the default is the
standard access-token requirement. -/
inductive Securities where
  | access_token
  | no_token
deriving DecidableEq, Repr

/-- The Python enum member name, as interpolated by the source into the
security requirement key. -/
def Securities.name : Securities → String
  | .access_token => "access_token"
  | .no_token => "no_token"

/-- Modelled from the spec: a schema class together with the values the
external collaborators resolve for it. name is the registry-resolved document
name, ref the registry-produced JSON-reference string; tags and url_id_field
are the declarative options of the schema class, each absent when the schema
does not declare it. -/
structure Schema where
  name : String
  ref : String
  tags : Option (List String)
  url_id_field : Option String
deriving DecidableEq, Repr

/-- Modelled from the spec: SchemasRegistry.schema_name returns the stable
registry-resolved document name of a schema class. -/
def SchemasRegistry.schema_name (s : Schema) : String :=
  s.name

/-- Modelled from the spec: SchemasRegistry.schema_ref returns a JSON-schema
reference string usable directly in an OpenAPI document. -/
def SchemasRegistry.schema_ref (s : Schema) : String :=
  s.ref

/-- Modelled from the spec: FlaskPathsManager.generate_operation_id is a
deterministic, collision-resistant function of the verb, the collection flag
and the registry-resolved schema name. -/
def FlaskPathsManager.generate_operation_id
    (verb : String) (is_collection : Bool) (schema : Schema) : String :=
  verb ++ (if is_collection then "_list_" else "_") ++ SchemasRegistry.schema_name schema

/-- The Python reading getattr(schema.opts, "tags", []): the declared tag list
of the schema, or the empty list when the option is absent. -/
def schemaTags (s : Schema) : List String :=
  s.tags.getD []

/-- The default path parameter the initial-document factory seeds: named from
the schema's url_id_field option when present, otherwise a nameless
placeholder that the final falsy-name filter discards. -/
def defaultPathParameter (schema : Schema) : ParameterObject :=
  { name := schema.url_id_field
    in_ := some Locations.path
    required := none
    allowEmptyValue := none }

/-- Modelled from the spec: the initial-document factory _initial_docs (from
the shared helpers module, not under src/). It produces a baseline Operation
with one default path parameter when with_id_in_path is set, an empty
responses map, security defaulted to the standard access-token requirement,
and tags empty. -/
def _initial_docs (schema : Schema) (with_id_in_path : Bool) : OperationObject :=
  { operationId := none
    summary := none
    tags := []
    parameters := if with_id_in_path then [defaultPathParameter schema] else []
    requestBody := none
    responses := []
    security := some [⟨Securities.access_token.name, []⟩] }

/-- Dict-style assignment responses[k] = v: overwrite the entry at k in
place if present, otherwise append a new entry. -/
def setResp :
    List (String × ResponseObject) → String → ResponseObject →
    List (String × ResponseObject)
  | [], k, v => [(k, v)]
  | p :: rest, k, v => if p.1 = k then (k, v) :: rest else p :: setResp rest k v

/-- Dict-style lookup responses[k] as an Option. -/
def lookupResp : List (String × ResponseObject) → String → Option ResponseObject
  | [], _ => none
  | p :: rest, k => if p.1 = k then some p.2 else lookupResp rest k

/-- The description-only response entry the error-merge helper writes. -/
def errResponse (description : String) : ResponseObject :=
  ⟨some description, none⟩

/-- Folding an errors mapping into a responses map, one dict assignment
responses[str(code)] = description-only entry at a time. -/
def mergeErrors :
    List (String × ResponseObject) → List (Int × String) →
    List (String × ResponseObject)
  | rs, [] => rs
  | rs, (c, d) :: rest => mergeErrors (setResp rs (toString c) (errResponse d)) rest

/-- Modelled from the spec: the error-merge helper _update_errors (from the
shared helpers module, not under src/). For each entry of the errors mapping
it inserts or overwrites responses[str(status_code)] with a description-only
entry; no status-code validation is performed. -/
def _update_errors (doc : OperationObject) (errors : Option (List (Int × String))) :
    OperationObject :=
  match errors with
  | none => doc
  | some es => { doc with responses := mergeErrors doc.responses es }

/-- The union type ParameterObject | dict accepted for additional_parameters
and headers entries: a raw mapping is validated into a ParameterObject by the
source before use. -/
inductive ParamInput where
  | dict (fields : ParameterObject)
  | obj (p : ParameterObject)
deriving DecidableEq, Repr

/-- The normalization the source applies to a union entry: a raw dict is
coerced through the ParameterObject constructor, a structured object is used
as is. -/
def ParamInput.toParameterObject : ParamInput → ParameterObject
  | .dict fields => fields
  | .obj p => p

/-- The statement parameters[0].name = url_id_field on a parameter list. -/
def renameHead (ps : List ParameterObject) (n : String) : List ParameterObject :=
  match ps with
  | [] => []
  | p :: rest => { p with name := some n } :: rest

/-- The POST Operation-document builder (decorate_post.post, lines 86-159).
It resolves defaults, seeds the baseline document, decides the success
response from the response schema's registry name, attaches the request body,
applies the path-parameter policy, appends and filters parameters, merges
tags and errors, and finally appends headers with their location forced to
header. The closing hand-off to the path manager (lines 161-163) is the
opaque sink outside this subsystem; the builder's value is the finished
document. -/
def post (request_schema : Schema) (response_schema : Option Schema)
    (operation_id : Option String) (summary : Option String)
    (errors : Option (List (Int × String))) (headers : Option (List ParamInput))
    (security : Securities) (additional_parameters : Option (List ParamInput)) :
    OperationObject :=
  -- lines 86-87: if not response_schema: response_schema = request_schema
  let response_schema : Schema :=
    match response_schema with
    | none => request_schema
    | some s => s
  -- lines 89-92: if not operation_id: operation_id = generate_operation_id(...)
  let operation_id : String :=
    if optStrTruthy operation_id then operation_id.getD ""
    else FlaskPathsManager.generate_operation_id "post" false response_schema
  -- line 94
  let open_api_data := _initial_docs request_schema true
  -- line 96
  let open_api_data := { open_api_data with operationId := some operation_id }
  -- lines 97-98
  let open_api_data :=
    if security ≠ Securities.no_token then
      { open_api_data with security := some [⟨security.name, []⟩] }
    else open_api_data
  -- line 100: responses = ResponsesObject()
  let open_api_data := { open_api_data with responses := [] }
  -- lines 103-112
  let open_api_data :=
    if strContainsSub (strLower (SchemasRegistry.schema_name response_schema)) "deleted" then
      { open_api_data with
        responses :=
          setResp open_api_data.responses "204" ⟨some "Resource was deleted", none⟩ }
    else
      { open_api_data with
        responses :=
          setResp open_api_data.responses "201"
            ⟨none, some [("application/json",
              ⟨SchemasRegistry.schema_ref response_schema⟩)]⟩ }
  -- lines 114-122
  let open_api_data :=
    { open_api_data with
      requestBody :=
        some ⟨[("application/json", ⟨SchemasRegistry.schema_ref request_schema⟩)]⟩ }
  -- lines 124-125: if summary: open_api_data.summary = summary
  let open_api_data :=
    if optStrTruthy summary then { open_api_data with summary := summary }
    else open_api_data
  -- line 127
  let url_id_field := request_schema.url_id_field
  -- lines 131-137
  let open_api_data :=
    if optStrTruthy url_id_field
        && !strContainsSub (strLower (SchemasRegistry.schema_name request_schema)) "create" then
      { open_api_data with
        parameters := renameHead open_api_data.parameters (url_id_field.getD "") }
    else
      { open_api_data with parameters := [] }
  -- lines 139-142
  let open_api_data :=
    { open_api_data with
      parameters :=
        open_api_data.parameters
          ++ (additional_parameters.getD []).map ParamInput.toParameterObject }
  -- line 144
  let open_api_data :=
    { open_api_data with
      parameters := open_api_data.parameters.filter (fun p => optStrTruthy p.name) }
  -- lines 146-151
  let open_api_data :=
    { open_api_data with
      tags := (schemaTags request_schema ++ schemaTags response_schema).dedup }
  -- line 153
  let open_api_data := _update_errors open_api_data errors
  -- lines 155-159
  let open_api_data :=
    { open_api_data with
      parameters :=
        open_api_data.parameters
          ++ (headers.getD []).map
              (fun h => { h.toParameterObject with in_ := some Locations.header }) }
  open_api_data

/-- A concrete schema used to instantiate the theorems below. -/
def bookSchema : Schema :=
  { name := "BookSchema"
    ref := "#/components/schemas/Book"
    tags := some ["Books"]
    url_id_field := some "id" }

/-- A concrete schema whose registry name contains the substring deleted. -/
def bookDeletedSchema : Schema :=
  { name := "BookDeletedSchema"
    ref := "#/components/schemas/BookDeleted"
    tags := some ["Books"]
    url_id_field := none }

/-- A concrete schema whose registry name contains the substring create. -/
def bookCreateSchema : Schema :=
  { name := "BookCreateSchema"
    ref := "#/components/schemas/BookCreate"
    tags := some ["Books", "Create"]
    url_id_field := some "id" }

/-- The parameter list the builder holds just before the final headers
append: path-parameter policy applied, additional parameters coerced and
appended, falsy names filtered. -/
def preHeaderParameters (request_schema : Schema)
    (additional_parameters : Option (List ParamInput)) : List ParameterObject :=
  ((if optStrTruthy request_schema.url_id_field
        && !strContainsSub (strLower (SchemasRegistry.schema_name request_schema)) "create"
      then [{ defaultPathParameter request_schema
                with name := some (request_schema.url_id_field.getD "") }]
      else [])
    ++ (additional_parameters.getD []).map ParamInput.toParameterObject).filter
    (fun p => optStrTruthy p.name)

/-- The header parameters as appended by the builder: coerced and with their
location forced to header. -/
def headerParameters (headers : Option (List ParamInput)) : List ParameterObject :=
  (headers.getD []).map
    (fun h => { h.toParameterObject with in_ := some Locations.header })

/-- The success response map the builder seeds in lines 100-112. -/
def successResponses (response_schema : Schema) : List (String × ResponseObject) :=
  if strContainsSub (strLower (SchemasRegistry.schema_name response_schema)) "deleted" then
    [("204", ⟨some "Resource was deleted", none⟩)]
  else
    [("201", ⟨none, some [("application/json",
      ⟨SchemasRegistry.schema_ref response_schema⟩)]⟩)]

set_option maxHeartbeats 1000000 in
/-- Full characterization of the finished document, field by field. -/
theorem post_eq (request_schema : Schema) (response_schema : Option Schema)
    (operation_id : Option String) (summary : Option String)
    (errors : Option (List (Int × String))) (headers : Option (List ParamInput))
    (security : Securities) (additional_parameters : Option (List ParamInput)) :
    post request_schema response_schema operation_id summary errors headers security
        additional_parameters =
      { operationId :=
          some (if optStrTruthy operation_id then operation_id.getD ""
            else FlaskPathsManager.generate_operation_id "post" false
              (response_schema.getD request_schema))
        summary := if optStrTruthy summary then summary else none
        tags :=
          (schemaTags request_schema
            ++ schemaTags (response_schema.getD request_schema)).dedup
        parameters :=
          preHeaderParameters request_schema additional_parameters
            ++ headerParameters headers
        requestBody :=
          some ⟨[("application/json", ⟨SchemasRegistry.schema_ref request_schema⟩)]⟩
        responses :=
          mergeErrors (successResponses (response_schema.getD request_schema))
            (errors.getD [])
        security :=
          if security ≠ Securities.no_token then some [⟨security.name, []⟩]
          else some [⟨Securities.access_token.name, []⟩] } := by
  cases response_schema <;> cases errors <;>
    simp only [post, _update_errors, preHeaderParameters, headerParameters,
      successResponses, Option.getD_none, Option.getD_some] <;>
    split_ifs <;> rfl

theorem lookupResp_setResp_self (rs : List (String × ResponseObject))
    (k : String) (v : ResponseObject) :
    lookupResp (setResp rs k v) k = some v := by
  induction rs with
  | nil => simp [setResp, lookupResp]
  | cons p rest ih =>
    by_cases h : p.1 = k
    · simp [setResp, h, lookupResp]
    · simp [setResp, h, lookupResp, ih]

theorem lookupResp_setResp_ne (rs : List (String × ResponseObject))
    (k k' : String) (v : ResponseObject) (h : k' ≠ k) :
    lookupResp (setResp rs k v) k' = lookupResp rs k' := by
  have hkk' : ¬k = k' := fun hk => h hk.symm
  induction rs with
  | nil => simp [setResp, lookupResp, hkk']
  | cons p rest ih =>
    by_cases hp : p.1 = k
    · have hp' : ¬p.1 = k' := fun hq => h (hq.symm.trans hp)
      simp [setResp, hp, lookupResp, hkk', hp']
    · simp [setResp, hp, lookupResp, ih]

theorem lookupResp_mergeErrors_not_mem (es : List (Int × String))
    (rs : List (String × ResponseObject)) (k : String)
    (h : ∀ x ∈ es, toString x.1 ≠ k) :
    lookupResp (mergeErrors rs es) k = lookupResp rs k := by
  induction es generalizing rs with
  | nil => rfl
  | cons e rest ih =>
    have hrest : ∀ x ∈ rest, toString x.1 ≠ k := fun x hx => h x (List.mem_cons_of_mem e hx)
    have hhead : toString e.1 ≠ k := h e (List.mem_cons_self e rest)
    calc lookupResp (mergeErrors (setResp rs (toString e.1) (errResponse e.2)) rest) k
        = lookupResp (setResp rs (toString e.1) (errResponse e.2)) k := ih _ hrest
      _ = lookupResp rs k := lookupResp_setResp_ne _ _ _ _ (fun hk => hhead hk.symm)

theorem lookupResp_mergeErrors_mem (es : List (Int × String))
    (rs : List (String × ResponseObject)) (c : Int) (d : String)
    (hnd : es.Pairwise (fun a b => toString a.1 ≠ toString b.1))
    (hmem : (c, d) ∈ es) :
    lookupResp (mergeErrors rs es) (toString c) = some (errResponse d) := by
  induction es generalizing rs with
  | nil => cases hmem
  | cons e rest ih =>
    rcases List.mem_cons.mp hmem with heq | htail
    · subst heq
      have hrest : ∀ x ∈ rest, toString x.1 ≠ toString c := by
        intro x hx
        have hne := (List.pairwise_cons.mp hnd).1 x hx
        exact fun hk => hne hk.symm
      show lookupResp
          (mergeErrors (setResp rs (toString c) (errResponse d)) rest) (toString c)
        = some (errResponse d)
      rw [lookupResp_mergeErrors_not_mem rest _ _ hrest]
      exact lookupResp_setResp_self _ _ _
    · exact ih _ (List.pairwise_cons.mp hnd).2 htail

theorem lookupResp_mergeErrors_desc_only (es : List (Int × String))
    (rs : List (String × ResponseObject)) (k : String) (r0 : ResponseObject)
    (h0 : lookupResp rs k = some r0) (hc : r0.content = none)
    (hd : r0.description.isSome = true) :
    ∃ r, lookupResp (mergeErrors rs es) k = some r
      ∧ r.content = none ∧ r.description.isSome = true := by
  induction es generalizing rs r0 with
  | nil => exact ⟨r0, h0, hc, hd⟩
  | cons e rest ih =>
    by_cases hk : toString e.1 = k
    · refine ih (setResp rs (toString e.1) (errResponse e.2)) (errResponse e.2) ?_ rfl rfl
      rw [← hk]
      exact lookupResp_setResp_self _ _ _
    · refine ih (setResp rs (toString e.1) (errResponse e.2)) r0 ?_ hc hd
      rw [lookupResp_setResp_ne _ _ _ _ (fun h' => hk h'.symm)]
      exact h0

/-- C7: for every call to post without a response_schema override, the builder
uses the request schema as the response schema in every place the response
schema is consulted: the finished document is identical to the one produced
when the request schema is passed explicitly as the response schema. -/
theorem post_response_schema_defaults (rs : Schema) (oid s : Option String)
    (e : Option (List (Int × String))) (h : Option (List ParamInput))
    (sec : Securities) (ap : Option (List ParamInput)) :
    post rs none oid s e h sec ap = post rs (some rs) oid s e h sec ap := rfl

/-- C8: for every call to post, including the 204 case where the response
schema's name contains deleted, the finished document has a requestBody whose
application/json schema is the registry reference of the request schema. -/
theorem post_request_body_always_ref (rs : Schema) (rso : Option Schema)
    (oid s : Option String) (e : Option (List (Int × String)))
    (h : Option (List ParamInput)) (sec : Securities) (ap : Option (List ParamInput)) :
    (post rs rso oid s e h sec ap).requestBody
      = some { content := [("application/json",
          { schema_ref := SchemasRegistry.schema_ref rs })] } := by
  rw [post_eq]

/-- C10: the defaulting checks are truthiness checks, not is-None checks: an
operation_id equal to the empty string is replaced by the auto-generated id,
and a falsy (absent) response_schema is replaced by the request schema. -/
theorem post_truthiness_defaulting (rs : Schema) (rso : Option Schema)
    (oid s : Option String) (e : Option (List (Int × String)))
    (h : Option (List ParamInput)) (sec : Securities) (ap : Option (List ParamInput)) :
    (post rs rso (some "") s e h sec ap).operationId
        = some (FlaskPathsManager.generate_operation_id "post" false (rso.getD rs))
      ∧ post rs none oid s e h sec ap = post rs (some rs) oid s e h sec ap := by
  constructor
  · rw [post_eq]
    simp [optStrTruthy]
  · rfl

/-- C6: every parameter originating from the headers input sits in the final
parameters sequence with its location forced to header, whatever location the
caller supplied: the final sequence is the headers-free sequence followed by
the normalized header parameters, all of which have location header. -/
theorem post_headers_forced_to_header (rs : Schema) (rso : Option Schema)
    (oid s : Option String) (e : Option (List (Int × String)))
    (h : Option (List ParamInput)) (sec : Securities) (ap : Option (List ParamInput)) :
    (post rs rso oid s e h sec ap).parameters
        = (post rs rso oid s e none sec ap).parameters ++ headerParameters h
      ∧ ((headerParameters h).all (fun p => p.in_ == some Locations.header)) = true := by
  constructor
  · rw [post_eq, post_eq]
    simp [headerParameters]
  · simp [headerParameters, List.all_eq_true]

/-- C9: the finished document's tags are duplicate-free and equal, as a set,
the union of the request schema's and the (resolved) response schema's
declared tags; a schema without a tags option contributes the empty set. -/
theorem post_tags_set_union (rs : Schema) (rso : Option Schema)
    (oid s : Option String) (e : Option (List (Int × String)))
    (h : Option (List ParamInput)) (sec : Securities) (ap : Option (List ParamInput)) :
    (post rs rso oid s e h sec ap).tags.Nodup
      ∧ ∀ x, x ∈ (post rs rso oid s e h sec ap).tags
          ↔ (x ∈ schemaTags rs ∨ x ∈ schemaTags (rso.getD rs)) := by
  rw [post_eq]
  constructor
  · exact List.nodup_dedup _
  · intro x
    simp [List.mem_dedup]

/-- C5: the path-parameter policy of the builder: when the request schema has
a truthy url_id_field option and its registry name does not contain create
(case-insensitive), the baseline's default path parameter is renamed to that
field and kept at the head of the final parameters; in every other case all
baseline path parameters are dropped and only the (filtered) additional
parameters and the appended headers remain. -/
theorem post_path_parameter_policy (rs : Schema) (rso : Option Schema)
    (oid s : Option String) (e : Option (List (Int × String)))
    (h : Option (List ParamInput)) (sec : Securities) (ap : Option (List ParamInput)) :
    ((optStrTruthy rs.url_id_field
        && !strContainsSub (strLower (SchemasRegistry.schema_name rs)) "create") = true →
      (post rs rso oid s e h sec ap).parameters
        = { defaultPathParameter rs with name := some (rs.url_id_field.getD "") }
            :: (((ap.getD []).map ParamInput.toParameterObject).filter
                  (fun p => optStrTruthy p.name)
                ++ headerParameters h))
    ∧ ((optStrTruthy rs.url_id_field
        && !strContainsSub (strLower (SchemasRegistry.schema_name rs)) "create") = false →
      (post rs rso oid s e h sec ap).parameters
        = ((ap.getD []).map ParamInput.toParameterObject).filter
            (fun p => optStrTruthy p.name) ++ headerParameters h) := by
  constructor
  · intro hcond
    have h1 : optStrTruthy rs.url_id_field = true := by
      have hsplit := hcond
      rw [Bool.and_eq_true] at hsplit
      exact hsplit.1
    have hname : optStrTruthy (some (rs.url_id_field.getD "")) = true := by
      cases hu : rs.url_id_field with
      | none => rw [hu] at h1; exact absurd h1 (by simp [optStrTruthy])
      | some v => rw [hu] at h1; simpa [optStrTruthy] using h1
    rw [post_eq]
    simp [preHeaderParameters, hcond, hname, List.filter_cons]
  · intro hcond
    rw [post_eq]
    simp [preHeaderParameters, hcond]

/-- C5 witness: concrete instances of both branches of the path-parameter
policy: a schema with url_id_field id and no create in its name keeps the
renamed path parameter; a schema whose name contains create drops it. -/
theorem post_path_parameter_policy_witness :
    (post bookSchema none none none none none Securities.access_token none).parameters
        = [{ name := some "id", in_ := some Locations.path, required := none,
             allowEmptyValue := none }]
      ∧ (post bookCreateSchema none none none none none Securities.access_token
          none).parameters = [] :=
  ⟨(post_path_parameter_policy bookSchema none none none none none
      Securities.access_token none).1 (by decide),
   (post_path_parameter_policy bookCreateSchema none none none none none
      Securities.access_token none).2 (by decide)⟩

/-- C4: every entry of the errors mapping ends up in the finished document's
responses under the stringified status code with a description-only entry,
inserting or overwriting whatever was there (caller codes take precedence
over the builder's success-response guess); any integer code is accepted. -/
theorem post_errors_merged (rs : Schema) (rso : Option Schema)
    (oid s : Option String) (h : Option (List ParamInput)) (sec : Securities)
    (ap : Option (List ParamInput)) (es : List (Int × String))
    (hnd : es.Pairwise (fun a b => toString a.1 ≠ toString b.1))
    (c : Int) (d : String) (hmem : (c, d) ∈ es) :
    lookupResp (post rs rso oid s (some es) h sec ap).responses (toString c)
      = some { description := some d, content := none } := by
  rw [post_eq]
  exact lookupResp_mergeErrors_mem es _ c d hnd hmem

/-- C4 witness: a mapping with the colliding success code 201 and a negative,
out-of-range code: both land verbatim as description-only entries. -/
theorem post_errors_merged_witness :
    lookupResp (post bookSchema none none none
        (some [((201 : Int), "overwritten"), ((-7 : Int), "strange")]) none
        Securities.access_token none).responses (toString (-7 : Int))
      = some { description := some "strange", content := none } :=
  post_errors_merged bookSchema none none none none Securities.access_token none
    [((201 : Int), "overwritten"), ((-7 : Int), "strange")] (by decide)
    (-7) "strange" (by decide)

/-- C1 counterexample: calling post with a non-deleted response schema but
errors containing code 201 leaves responses at key 201 as the caller's
description-only entry, with no JSON body reference to the response schema,
refuting the claim that the 201 entry always carries the body reference. -/
theorem post_success_response_counterexample :
    lookupResp (post bookSchema none none none (some [((201 : Int), "boom")]) none
        Securities.access_token none).responses "201"
      = some { description := some "boom", content := none } := by decide

/-- C1 amended: the success entry decided by the response schema's
registry-resolved name; when the name contains deleted (case-insensitive) the
finished responses hold a description-only, body-free entry at key 204; when
it does not, and the errors mapping holds no entry stringifying to 201, the
finished responses hold at key 201 exactly the JSON body reference to the
response schema (an errors entry for 201 would overwrite it, per the
error-merge precedence). -/
theorem post_success_response_entry (rs : Schema) (rso : Option Schema)
    (oid s : Option String) (e : Option (List (Int × String)))
    (h : Option (List ParamInput)) (sec : Securities) (ap : Option (List ParamInput)) :
    (strContainsSub (strLower (SchemasRegistry.schema_name (rso.getD rs))) "deleted" = true →
      ∃ r, lookupResp (post rs rso oid s e h sec ap).responses "204" = some r
        ∧ r.content = none ∧ r.description.isSome = true)
    ∧ (strContainsSub (strLower (SchemasRegistry.schema_name (rso.getD rs))) "deleted" = false →
      (∀ x ∈ e.getD [], toString x.1 ≠ "201") →
      lookupResp (post rs rso oid s e h sec ap).responses "201"
        = some ⟨none, some [("application/json",
            ⟨SchemasRegistry.schema_ref (rso.getD rs)⟩)]⟩) := by
  constructor
  · intro hdel
    rw [post_eq]
    refine lookupResp_mergeErrors_desc_only _ _ _
      ⟨some "Resource was deleted", none⟩ ?_ rfl rfl
    simp [successResponses, hdel, lookupResp]
  · intro hdel hno
    rw [post_eq]
    rw [lookupResp_mergeErrors_not_mem _ _ _ hno]
    simp [successResponses, hdel, lookupResp]

/-- C1 witness: a deleted-named response schema yields the body-free 204
entry even when errors overwrite its description, and a plain schema with an
unrelated error code keeps the 201 body reference. -/
theorem post_success_response_entry_witness :
    (∃ r, lookupResp (post bookSchema (some bookDeletedSchema) none none
          (some [((204 : Int), "gone")]) none Securities.access_token none).responses "204"
        = some r ∧ r.content = none ∧ r.description.isSome = true)
    ∧ lookupResp (post bookSchema none none none (some [((409 : Int), "conflict")]) none
          Securities.access_token none).responses "201"
        = some ⟨none, some [("application/json", ⟨"#/components/schemas/Book"⟩)]⟩ :=
  ⟨(post_success_response_entry bookSchema (some bookDeletedSchema) none none
      (some [((204 : Int), "gone")]) none Securities.access_token none).1 (by decide),
   (post_success_response_entry bookSchema none none none
      (some [((409 : Int), "conflict")]) none Securities.access_token none).2
      (by decide) (by decide)⟩

/-- C2 counterexample: a header entry with an empty name is appended after
the falsy-name filter has already run, so the finished parameters sequence
contains an entry with a falsy name, refuting the claimed invariant. -/
theorem post_falsy_header_name_counterexample :
    ((post bookSchema none none none none
        (some [ParamInput.dict ⟨some "", none, none, none⟩])
        Securities.access_token none).parameters.all
      (fun p => optStrTruthy p.name)) = false := by decide

/-- C2 amended: the falsy-name filter is effective on the baseline and
additional parameters, which are filtered before headers are appended; the
finished parameters sequence is free of falsy names exactly when every
headers entry itself carries a truthy name, since header entries are appended
after the filter and bypass it. -/
theorem post_parameters_truthy_names (rs : Schema) (rso : Option Schema)
    (oid s : Option String) (e : Option (List (Int × String)))
    (h : Option (List ParamInput)) (sec : Securities) (ap : Option (List ParamInput))
    (hh : ((h.getD []).all
        (fun x => optStrTruthy (ParamInput.toParameterObject x).name)) = true) :
    ((post rs rso oid s e h sec ap).parameters.all
        (fun p => optStrTruthy p.name)) = true := by
  rw [post_eq]
  simp only [List.all_append, Bool.and_eq_true]
  constructor
  · simp only [preHeaderParameters, List.all_eq_true]
    intro p hp
    simpa using (List.mem_filter.mp hp).2
  · simp only [headerParameters, List.all_eq_true] at hh ⊢
    intro p hp
    rcases List.mem_map.mp hp with ⟨x, hx, rfl⟩
    exact hh x hx

/-- C2 witness: with a single named header the finished parameters carry
truthy names throughout. -/
theorem post_parameters_truthy_names_witness :
    ((post bookSchema none none none none
        (some [ParamInput.dict ⟨some "X-Foo", none, none, none⟩])
        Securities.access_token none).parameters.all
      (fun p => optStrTruthy p.name)) = true :=
  post_parameters_truthy_names bookSchema none none none none
    (some [ParamInput.dict ⟨some "X-Foo", none, none, none⟩])
    Securities.access_token none (by decide)

/-- C3 counterexample: with the no-token sentinel the finished document still
has a security field: the baseline default seeded by the initial-document
factory is never cleared, refuting the claim that no security field is set. -/
theorem post_no_token_security_counterexample :
    (post bookSchema none none none none none Securities.no_token none).security
      ≠ none := by decide

/-- C3 amended: when security is the no-token sentinel the builder leaves the
baseline's default access-token requirement in place, so the document's
security equals that default rather than being unset; for every non-sentinel
value the security is exactly one requirement keyed by the scheme's name. -/
theorem post_security_requirement (rs : Schema) (rso : Option Schema)
    (oid s : Option String) (e : Option (List (Int × String)))
    (h : Option (List ParamInput)) (sec : Securities) (ap : Option (List ParamInput)) :
    (sec = Securities.no_token →
      (post rs rso oid s e h sec ap).security
        = some [{ scheme := Securities.access_token.name, scopes := [] }])
    ∧ (sec ≠ Securities.no_token →
      (post rs rso oid s e h sec ap).security
        = some [{ scheme := sec.name, scopes := [] }]) := by
  constructor
  · intro hs
    rw [post_eq]
    simp [hs]
  · intro hs
    rw [post_eq]
    simp [hs]

/-- C3 witness: the sentinel call keeps the default access-token requirement;
an access-token call sets the requirement keyed by the scheme name. -/
theorem post_security_requirement_witness :
    (post bookSchema none none none none none Securities.no_token none).security
        = some [{ scheme := Securities.access_token.name, scopes := [] }]
      ∧ (post bookSchema none none none none none Securities.access_token none).security
        = some [{ scheme := Securities.access_token.name, scopes := [] }] :=
  ⟨(post_security_requirement bookSchema none none none none none
      Securities.no_token none).1 rfl,
   (post_security_requirement bookSchema none none none none none
      Securities.access_token none).2 (by decide)⟩
